import Mathlib

/-!
Verification of `tensorflow/python/compiler/xla/xla.py` (XLA compile support
library) against its natural-language specification.

The development shallow-embeds the pure logic of the module:
* the arity checker `check_function_argument_count`,
* the output normalizers `_postprocess_flat_outputs` / `_postprocess_non_flat_outputs`
  together with `is_flat`,
* the `XLACompileContext` state machine (`AddValue`, `AddOp`,
  `_RemoveExternalControlEdges`),
* the `_CapturedObject` helper,
* the control flow of the `_compile_internal` driver.

External collaborators (the TF graph library, `nest`, `tf_inspect`,
`variable_scope`, logging) are modelled through the minimal interface the
module uses from them, as plain data.
-/

set_option autoImplicit false

namespace Xla

/-! ### Arity checker (`check_function_argument_count`)

`tf_inspect.getargspec(func)` is modelled by the fields the checker reads:
the declared positional parameter names, the optional varargs name and the
optional list of default values.  The infeed queue is modelled by the single
attribute the checker reads, `number_of_tuple_elements`. -/

structure ArgSpec where
  args : List String
  varargs : Option String
  defaults : Option (List Nat)
deriving DecidableEq

structure InfeedQueue where
  number_of_tuple_elements : Nat
deriving DecidableEq

/-- `format_error(complaint, quantity)` from the source: `'%s %d argument%s'`
with an `s` appended unless the quantity is 1.  Quantities are Python ints,
hence `Int`. -/
def format_error (complaint : String) (quantity : Int) : String :=
  complaint ++ " " ++ toString quantity ++ " argument" ++
    (if quantity == 1 then "" else "s")

/-- `num_args_supplied`: the explicit arity plus the queue's declared element
count when a queue is given. -/
def num_args_supplied (input_arity : Nat) (infeed_queue : Option InfeedQueue) : Int :=
  match infeed_queue with
  | none => (input_arity : Int)
  | some q => (input_arity : Int) + (q.number_of_tuple_elements : Int)

/-- `num_func_args = len(arg_spec.args)`. -/
def num_func_args (arg_spec : ArgSpec) : Int :=
  (arg_spec.args.length : Int)

/-- `num_func_defaults`: 0 when `arg_spec.defaults is None`, else its length. -/
def num_func_defaults (arg_spec : ArgSpec) : Int :=
  match arg_spec.defaults with
  | none => 0
  | some d => (d.length : Int)

/-- `min_func_args = num_func_args - num_func_defaults`. -/
def min_func_args (arg_spec : ArgSpec) : Int :=
  num_func_args arg_spec - num_func_defaults arg_spec

/-- `check_function_argument_count(func, input_arity, infeed_queue)`:
returns `none` when the function can be called with the supplied number of
arguments, otherwise an error string. -/
def check_function_argument_count (func : ArgSpec) (input_arity : Nat)
    (infeed_queue : Option InfeedQueue) : Option String :=
  if num_args_supplied input_arity infeed_queue < min_func_args func then
    if num_func_defaults func = 0 ∧ func.varargs = none then
      some (format_error "exactly" (num_func_args func))
    else
      some (format_error "at least" (min_func_args func))
  else if func.varargs = none ∧ num_func_args func < num_args_supplied input_arity infeed_queue then
    if num_func_defaults func = 0 then
      some (format_error "exactly" (num_func_args func))
    else
      some (format_error "at most" (num_func_args func))
  else
    none

/-- Claim C1: `check_function_argument_count` returns `none` exactly when the
total supplied argument count lies in `[declared - defaults, declared]`, the
upper bound being waived when the function accepts varargs; otherwise it
returns "exactly N arguments" when the function has no defaults and no
varargs, "at least N arguments" when too few arguments are supplied but
defaults or varargs exist, and "at most N arguments" when too many arguments
are supplied, no varargs exists and defaults exist. -/
theorem check_function_argument_count_spec (func : ArgSpec) (input_arity : Nat)
    (infeed_queue : Option InfeedQueue) :
    (check_function_argument_count func input_arity infeed_queue = none ↔
      (min_func_args func ≤ num_args_supplied input_arity infeed_queue ∧
        (num_args_supplied input_arity infeed_queue ≤ num_func_args func ∨
          func.varargs ≠ none))) ∧
    (¬ (min_func_args func ≤ num_args_supplied input_arity infeed_queue ∧
          (num_args_supplied input_arity infeed_queue ≤ num_func_args func ∨
            func.varargs ≠ none)) →
      num_func_defaults func = 0 → func.varargs = none →
      check_function_argument_count func input_arity infeed_queue =
        some (format_error "exactly" (num_func_args func))) ∧
    (num_args_supplied input_arity infeed_queue < min_func_args func →
      (num_func_defaults func ≠ 0 ∨ func.varargs ≠ none) →
      check_function_argument_count func input_arity infeed_queue =
        some (format_error "at least" (min_func_args func))) ∧
    (num_func_args func < num_args_supplied input_arity infeed_queue →
      func.varargs = none → num_func_defaults func ≠ 0 →
      check_function_argument_count func input_arity infeed_queue =
        some (format_error "at most" (num_func_args func))) := by
  have hD : 0 ≤ num_func_defaults func := by
    unfold num_func_defaults
    cases func.defaults <;> simp
  have hmin : min_func_args func = num_func_args func - num_func_defaults func := rfl
  unfold check_function_argument_count
  split_ifs with h1 h2 h3 h4
  · refine ⟨?_, ?_, ?_, ?_⟩
    · constructor
      · intro h
        simp at h
      · rintro ⟨ha, -⟩
        omega
    · intro _ _ _
      rfl
    · intro _ hex
      rcases hex with hx | hx
      · exact absurd h2.1 hx
      · exact absurd h2.2 hx
    · intro hgt _ _
      omega
  · refine ⟨?_, ?_, ?_, ?_⟩
    · constructor
      · intro h
        simp at h
      · rintro ⟨ha, -⟩
        omega
    · intro _ hd hv
      exact absurd ⟨hd, hv⟩ h2
    · intro _ _
      rfl
    · intro hgt _ _
      omega
  · refine ⟨?_, ?_, ?_, ?_⟩
    · constructor
      · intro h
        simp at h
      · rintro ⟨-, hb | hb⟩
        · omega
        · exact absurd h3.1 hb
    · intro _ _ _
      rfl
    · intro hlt _
      omega
    · intro _ _ hd
      exact absurd h4 hd
  · refine ⟨?_, ?_, ?_, ?_⟩
    · constructor
      · intro h
        simp at h
      · rintro ⟨-, hb | hb⟩
        · omega
        · exact absurd h3.1 hb
    · intro _ hd _
      exact absurd hd h4
    · intro hlt _
      omega
    · intro _ _ _
      rfl
  · refine ⟨?_, ?_, ?_, ?_⟩
    · constructor
      · intro _
        refine ⟨by omega, ?_⟩
        rcases Decidable.em (func.varargs = none) with hv | hv
        · left
          rcases Decidable.em (num_func_args func <
              num_args_supplied input_arity infeed_queue) with hgt | hgt
          · exact absurd ⟨hv, hgt⟩ h3
          · omega
        · right
          exact hv
      · intro _
        rfl
    · intro hbad _ hv
      exfalso
      apply hbad
      refine ⟨by omega, ?_⟩
      left
      rcases Decidable.em (num_func_args func <
          num_args_supplied input_arity infeed_queue) with hgt | hgt
      · exact absurd ⟨hv, hgt⟩ h3
      · omega
    · intro hlt _
      omega
    · intro hgt hva _
      exact absurd ⟨hva, hgt⟩ h3

/-- Witness for C1: the spec's own example, signature `(a, b, c=1)` with one
explicit argument and no queue, yields "at least 2 arguments"; the theorem's
hypotheses are discharged at this concrete input. -/
theorem check_function_argument_count_spec_witness :
    check_function_argument_count ⟨["a", "b", "c"], none, some [1]⟩ 1 none =
      some "at least 2 arguments" :=
  ((check_function_argument_count_spec ⟨["a", "b", "c"], none, some [1]⟩ 1
      none).2.2.1 (by decide) (by decide)).trans (by decide)

/-! ### Output normalization (`is_flat`, `_postprocess_flat_outputs`,
`_postprocess_non_flat_outputs`)

The graph collaborators are modelled by the information the normalizers
inspect: an `Operation` is a side-effecting graph operation (the appended
`control_flow_ops.no_op()` is the distinguished `Op.noOp`); a `Tensor` is
either a converted value or a pass-through identity of another tensor
(`array_ops.identity`).  A raw return element (`FlatOut`) is an operation, a
value convertible to a tensor, an inconvertible value, or Python `None`.
A full return structure (`PyOut`) is `None`, a single raw element, or an
arbitrarily nested sequence (the `nest` collaborator's structures). -/

inductive Op where
  | user (id : Nat)
  | noOp
deriving DecidableEq

/-- The `name` attribute of an operation, used in error messages. -/
def Op.opName : Op → String
  | .user id => "op_" ++ toString id
  | .noOp => "NoOp"

inductive Tensor where
  | base (id : Nat) (device : String)
  | identity (t : Tensor) (device : String)
deriving DecidableEq

/-- `t.device`. -/
def Tensor.device : Tensor → String
  | .base _ d => d
  | .identity _ d => d

inductive FlatOut where
  | operation (o : Op)
  | value (id : Nat) (device : String)
  | inconvertible (id : Nat)
  | noneVal
deriving DecidableEq

inductive PyOut where
  | pynone
  | leaf (e : FlatOut)
  | node (children : List PyOut)

/-- `is_flat(outputs)`: a sequence is flat when no element is itself a
sequence or a dict; a dict is non-flat; any other value (including `None`)
is flat.  Dicts are represented as `node`s like other non-flat structures. -/
def is_flat : PyOut → Bool
  | .node cs => cs.all fun c =>
      match c with
      | .node _ => false
      | _ => true
  | _ => true

/-- `ops.convert_to_tensor(o)` on a non-`Operation` raw element: succeeds on
convertible values and raises on anything else. -/
def convert_to_tensor : FlatOut → Except String Tensor
  | .value id device => .ok (Tensor.base id device)
  | .inconvertible id => .error ("Cannot convert value " ++ toString id ++ " to a tensor")
  | .noneVal => .error "None values not supported."
  | .operation o => .error ("Cannot convert operation " ++ o.opName ++ " to a tensor")

/-- The `ValueError` message wrapping a conversion failure in both
normalizers. -/
def conversionErrorMsg (e : String) : String :=
  "XLA computation function return values must all either be Operations or " ++
    "convertible to Tensors. Got error: \"" ++ e ++ "\""

/-- `o if isinstance(o, ops.Operation) else ops.convert_to_tensor(o)` for one
element of the flat output list. -/
def convertFlatElem (o : FlatOut) : Except String (Op ⊕ Tensor) :=
  match o with
  | .operation op => .ok (.inl op)
  | o => (convert_to_tensor o).map .inr

/-- The conversion list comprehension of `_postprocess_flat_outputs`, with
the first raised exception short-circuiting (to be wrapped by
`conversionErrorMsg`). -/
def convertAll : List FlatOut → Except String (List (Op ⊕ Tensor))
  | [] => .ok []
  | o :: os =>
    match convertFlatElem o with
    | .error e => .error e
    | .ok c =>
      match convertAll os with
      | .error e => .error e
      | .ok cs => .ok (c :: cs)

/-- `with ops.device(t.device if t.device else ''): array_ops.identity(t)`:
wraps a tensor in a pass-through identity carrying the original device
placement (Python's string truthiness makes the empty device `''`). -/
def identityWithDevice (t : Tensor) : Tensor :=
  Tensor.identity t (if t.device = "" then "" else t.device)

/-- The ordering `ValueError` of `_postprocess_flat_outputs`. -/
def flatOrderErrorMsg : String :=
  "XLA computation function must return zero or more Tensor values followed " ++
    "by zero or more Operations."

/-- `_postprocess_flat_outputs(outputs)`: `None` becomes an empty tuple, a
single value a one-tuple; a `no_op` is appended; every element is an
operation or is converted to a tensor (a failure raising a `ValueError`);
operations and tensors are separated and the original order must be
values-then-operations; tensors are identity-wrapped with their device. -/
def postprocessFlatOutputs (outputs : PyOut) : Except String (List Tensor × List Op) :=
  let outs : List FlatOut :=
    match outputs with
    | .pynone => []
    | .leaf e => [e]
    | .node cs => cs.map fun c =>
        match c with
        | .leaf e => e
        | .pynone => FlatOut.noneVal
        | .node _ => FlatOut.noneVal   -- unreachable: driver dispatches here only when flat
  let outs := outs ++ [FlatOut.operation Op.noOp]
  match convertAll outs with
  | .error e => .error (conversionErrorMsg e)
  | .ok converted =>
    let output_operations := converted.filterMap fun c =>
      match c with
      | .inl o => some o
      | .inr _ => none
    let output_tensors := converted.filterMap fun c =>
      match c with
      | .inr t => some t
      | .inl _ => none
    if converted ≠ output_tensors.map Sum.inr ++ output_operations.map Sum.inl then
      .error flatOrderErrorMsg
    else
      .ok (output_tensors.map identityWithDevice, output_operations)

mutual

/-- `nest.flatten(outputs)`: the nested-structure collaborator's flattening
to a linear list of leaves (`None` is itself a leaf). -/
def nestFlatten : PyOut → List FlatOut
  | .pynone => [.noneVal]
  | .leaf e => [e]
  | .node cs => nestFlattenList cs

/-- `nest.flatten` over the children of a sequence. -/
def nestFlattenList : List PyOut → List FlatOut
  | [] => []
  | c :: cs => nestFlatten c ++ nestFlattenList cs

end

/-- The `ValueError` message rejecting an `Operation` in a non-flat output
structure. -/
def nonFlatOperationErrorMsg (o : Op) : String :=
  "xla.compile does not support Operation as return value in non-flat " ++
    "output structure. You can set returned Operations as control " ++
    "dependencies of returned Tensors so Operations are triggered when " ++
    "Tensors are evaluated. Operation found: \"" ++ o.opName ++ "\""

/-- The loop body of `_postprocess_non_flat_outputs` over the flattened
elements: reject operations, convert the rest (wrapping conversion errors),
identity-wrap with device. -/
def processNonFlat : List FlatOut → Except String (List Tensor)
  | [] => .ok []
  | o :: os =>
    match o with
    | .operation oper => .error (nonFlatOperationErrorMsg oper)
    | o =>
      match convert_to_tensor o with
      | .error e => .error (conversionErrorMsg e)
      | .ok t =>
        match processNonFlat os with
        | .error e => .error e
        | .ok ts => .ok (identityWithDevice t :: ts)

/-- `_postprocess_non_flat_outputs(outputs)`: flatten, process every leaf,
and pair the tensors with an empty operations list. -/
def postprocessNonFlatOutputs (outputs : PyOut) : Except String (List Tensor × List Op) :=
  match processNonFlat (nestFlatten outputs) with
  | .error e => .error e
  | .ok ts => .ok (ts, [])

/-- Whether a raw return element is a side-effecting `Operation`. -/
def FlatOut.isOperation : FlatOut → Bool
  | .operation _ => true
  | _ => false

theorem processNonFlat_error_of_operation (l : List FlatOut)
    (h : l.any FlatOut.isOperation = true) :
    ∃ m, processNonFlat l = .error m := by
  induction l with
  | nil => simp at h
  | cons o os ih =>
    cases o with
    | operation oper => exact ⟨nonFlatOperationErrorMsg oper, rfl⟩
    | value id device =>
      simp [FlatOut.isOperation] at h
      rcases ih (by simpa [List.any_eq_true] using h) with ⟨m, hm⟩
      unfold processNonFlat
      rw [hm]
      exact ⟨m, rfl⟩
    | inconvertible id =>
      exact ⟨conversionErrorMsg ("Cannot convert value " ++ toString id ++ " to a tensor"), rfl⟩
    | noneVal =>
      exact ⟨conversionErrorMsg "None values not supported.", rfl⟩

/-- Claim C4: nested-output normalization raises a `ValueError` whenever any
element anywhere in the flattened nested structure is a side-effecting
operation, and on success it always returns an empty operations list. -/
theorem postprocess_non_flat_spec (outputs : PyOut) :
    ((nestFlatten outputs).any FlatOut.isOperation = true →
      ∃ m, postprocessNonFlatOutputs outputs = .error m) ∧
    (∀ ts ops, postprocessNonFlatOutputs outputs = .ok (ts, ops) → ops = []) := by
  constructor
  · intro h
    rcases processNonFlat_error_of_operation _ h with ⟨m, hm⟩
    refine ⟨m, ?_⟩
    unfold postprocessNonFlatOutputs
    rw [hm]
  · intro ts ops h
    unfold postprocessNonFlatOutputs at h
    rcases hp : processNonFlat (nestFlatten outputs) with e | ts2
    · rw [hp] at h
      cases h
    · rw [hp] at h
      cases h
      rfl

/-- Witness for C4: a nested structure `[[op_3]]` contains an operation in
its flattening, so normalization fails; both hypotheses of the theorem are
discharged at this concrete input. -/
theorem postprocess_non_flat_spec_witness :
    (nestFlatten (PyOut.node [PyOut.node [PyOut.leaf (FlatOut.operation (Op.user 3))]])).any
        FlatOut.isOperation = true ∧
    ∃ m, postprocessNonFlatOutputs
        (PyOut.node [PyOut.node [PyOut.leaf (FlatOut.operation (Op.user 3))]]) = .error m :=
  ⟨by decide,
    (postprocess_non_flat_spec
      (PyOut.node [PyOut.node [PyOut.leaf (FlatOut.operation (Op.user 3))]])).1 (by decide)⟩

/-- Claim C3 counterexample: on the flat list `[v1, v2, op1, op2]`
normalization succeeds but the returned operations list has three elements
(`op1`, `op2` and the internally appended `no_op`), not the two the claim
states. -/
theorem postprocess_flat_pair_counterexample :
    (postprocessFlatOutputs (PyOut.node
        [PyOut.leaf (FlatOut.value 1 ""), PyOut.leaf (FlatOut.value 2 ""),
         PyOut.leaf (FlatOut.operation (Op.user 1)),
         PyOut.leaf (FlatOut.operation (Op.user 2))])).toOption.map
      (fun r => r.2.length) = some 3 ∧ 3 ≠ 2 :=
  ⟨rfl, by decide⟩

/-- Claim C3 (amended): flat-output normalization on `[v1, v2, op1, op2]`
succeeds and returns the identity-wrapped values `[v1, v2]` together with
the operations `[op1, op2]` followed by the internally appended `no_op`;
normalization of `[v1, op1, v2]` raises a `ValueError` because the original
order was not values-then-operations. -/
theorem postprocess_flat_spec :
    postprocessFlatOutputs (PyOut.node
        [PyOut.leaf (FlatOut.value 1 ""), PyOut.leaf (FlatOut.value 2 ""),
         PyOut.leaf (FlatOut.operation (Op.user 1)),
         PyOut.leaf (FlatOut.operation (Op.user 2))]) =
      .ok ([Tensor.identity (Tensor.base 1 "") "", Tensor.identity (Tensor.base 2 "") ""],
           [Op.user 1, Op.user 2, Op.noOp]) ∧
    postprocessFlatOutputs (PyOut.node
        [PyOut.leaf (FlatOut.value 1 ""), PyOut.leaf (FlatOut.operation (Op.user 1)),
         PyOut.leaf (FlatOut.value 2 "")]) = .error flatOrderErrorMsg := by
  constructor <;> rfl

/-! ### `XLACompileContext`: value threading (`AddValue`)

A graph value is modelled by what the context reads from it: its `name` and
the `_is_ref_dtype` flag of its dtype.  Each control-flow context in the
enclosing chain owns a `_values` name set and an `_external_values`
name-to-value mapping; the chain is a list with the current context first and
enclosing contexts after it (`_outer_context` links), all threading values
with the discipline of `AddValue`. -/

structure TensorRef where
  name : String
  is_ref_dtype : Bool
deriving DecidableEq

structure ContextFrame where
  values : List String
  external_values : List (String × TensorRef)
deriving DecidableEq

/-- `self._values.add(n)`: set insertion into the seen-name set. -/
def insertName (n : String) (l : List String) : List String :=
  if n ∈ l then l else n :: l

/-- `self._external_values.get(n)`: dictionary lookup (latest binding
first). -/
def lookupKV (l : List (String × TensorRef)) (n : String) : Option TensorRef :=
  match l with
  | [] => none
  | (k, v) :: rest => if k = n then some v else lookupKV rest n

/-- `XLACompileContext.AddValue(val)` acting on the whole context chain
(current context first): if the name was already seen, return the recorded
external equivalent (or the value itself when none is recorded); otherwise
mark the name seen, resolve through the enclosing chain, also mark the
resolved name seen, record the external mapping, and return the resolved
value.  An empty chain (no enclosing context) resolves to the value
itself. -/
def AddValue : List ContextFrame → TensorRef → TensorRef × List ContextFrame
  | [], val => (val, [])
  | frame :: outer, val =>
    if val.name ∈ frame.values then
      ((lookupKV frame.external_values val.name).getD val, frame :: outer)
    else
      let r := AddValue outer val
      (r.1,
        { values := insertName r.1.name (insertName val.name frame.values),
          external_values := (val.name, r.1) :: frame.external_values } :: r.2)

theorem mem_insertName (m n : String) (l : List String) :
    m ∈ insertName n l ↔ m = n ∨ m ∈ l := by
  unfold insertName
  split
  · rename_i h
    constructor
    · exact Or.inr
    · rintro (rfl | hm)
      · exact h
      · exact hm
  · simp [List.mem_cons]

/-- Claim C5: `AddValue` is idempotent — a second call on the same value
from the same context returns the identical resolved value and leaves the
context chain unchanged — and a value whose name is unseen by every context
in the chain is, after one call, recorded as seen with a resolved external
mapping in every context of the chain. -/
theorem AddValue_idempotent (s : List ContextFrame) (val : TensorRef) :
    (AddValue (AddValue s val).2 val).1 = (AddValue s val).1 ∧
    (AddValue (AddValue s val).2 val).2 = (AddValue s val).2 ∧
    ((∀ f ∈ s, val.name ∉ f.values) →
      ∀ f ∈ (AddValue s val).2,
        val.name ∈ f.values ∧ (lookupKV f.external_values val.name).isSome = true) := by
  refine ⟨?_, ?_, ?_⟩
  · cases s with
    | nil => rfl
    | cons frame outer =>
      by_cases h : val.name ∈ frame.values
      · simp only [AddValue, if_pos h]
      · simp only [AddValue, if_neg h]
        have hmem : val.name ∈ insertName (AddValue outer val).1.name
            (insertName val.name frame.values) := by
          rw [mem_insertName, mem_insertName]
          exact Or.inr (Or.inl rfl)
        simp only [if_pos hmem]
        simp [lookupKV]
  · cases s with
    | nil => rfl
    | cons frame outer =>
      by_cases h : val.name ∈ frame.values
      · simp only [AddValue, if_pos h]
      · simp only [AddValue, if_neg h]
        have hmem : val.name ∈ insertName (AddValue outer val).1.name
            (insertName val.name frame.values) := by
          rw [mem_insertName, mem_insertName]
          exact Or.inr (Or.inl rfl)
        simp only [if_pos hmem]
  · induction s with
    | nil =>
      intro _ f hf
      simp [AddValue] at hf
    | cons frame outer ih =>
      intro hnone f hf
      have hfr : val.name ∉ frame.values := hnone frame (List.mem_cons_self _ _)
      simp only [AddValue, if_neg hfr] at hf
      rcases List.mem_cons.mp hf with rfl | hf
      · constructor
        · rw [mem_insertName, mem_insertName]
          exact Or.inr (Or.inl rfl)
        · simp [lookupKV]
      · exact ih (fun g hg => hnone g (List.mem_cons_of_mem _ hg)) f hf

/-- Witness for C5: on a two-context chain that has never seen the value
`x`, the theorem's hypothesis is discharged concretely; the second call
returns the same resolved value and the name is recorded everywhere. -/
theorem AddValue_idempotent_witness :
    (AddValue (AddValue [⟨[], []⟩, ⟨[], []⟩] ⟨"x", false⟩).2 ⟨"x", false⟩).1 =
      (AddValue [⟨[], []⟩, ⟨[], []⟩] ⟨"x", false⟩).1 ∧
    ∀ f ∈ (AddValue [⟨[], []⟩, ⟨[], []⟩] ⟨"x", false⟩).2,
      "x" ∈ f.values ∧ (lookupKV f.external_values "x").isSome = true :=
  ⟨(AddValue_idempotent [⟨[], []⟩, ⟨[], []⟩] ⟨"x", false⟩).1,
    (AddValue_idempotent [⟨[], []⟩, ⟨[], []⟩] ⟨"x", false⟩).2.2 (by decide)⟩

/-! ### `XLACompileContext`: operation interception (`AddOp`)

An operation referenced as a control input is modelled by what
`_RemoveExternalControlEdges` and `AddOp` read from it: its control-flow
context chain (as context identifiers, innermost first, following the
`_outer_context` links walked by the internality test) and its output list.
`array_ops.identity(x.outputs[0]).op`, the pass-through created inside the
re-entered context, is the constructor `identityOf`; its context chain is
the current context followed by its enclosing chain. -/

inductive CtrlOp where
  | basic (name : String) (ctx_chain : List Nat) (outputs : List TensorRef)
  | identityOf (src : CtrlOp) (ctx_chain : List Nat)
deriving DecidableEq

/-- The context chain of an operation (`x._get_control_flow_context()`
followed through `_outer_context`). -/
def CtrlOp.ctxChain : CtrlOp → List Nat
  | .basic _ c _ => c
  | .identityOf _ c => c

/-- `x.outputs`.  A pass-through identity has exactly one output forwarding
the source's primary output. -/
def CtrlOp.outs : CtrlOp → List TensorRef
  | .basic _ _ o => o
  | .identityOf src _ =>
      (src.outs.take 1).map fun o => { name := o.name ++ ":identity", is_ref_dtype := o.is_ref_dtype }

/-- The internality walk of `_RemoveExternalControlEdges`: starting from the
control input's context and following `_outer_context`, is the current
context (identified by `selfId`) ever reached? -/
def isInternalOp (selfId : Nat) (x : CtrlOp) : Bool :=
  decide (selfId ∈ x.ctxChain)

/-- An operation as `AddOp` manipulates it: type and name, data inputs,
control inputs, `node_def.attr`, outputs and the graph's feed/fetch
permissions for it. -/
structure Operation where
  op_type : String
  name : String
  inputs : List TensorRef
  control_inputs : List CtrlOp
  attrs : List (String × String)
  outputs : List TensorRef
  feedable : Bool
  fetchable : Bool
deriving DecidableEq

def xlaCompileAttrName : String := "_xla_compile_id"

def unsupportedOpsList : List String :=
  ["AudioSummary", "AudioSummaryV2", "HistogramSummary", "ImageSummary",
   "MergeSummary", "Print", "ScalarSummary", "TensorSummary", "TensorSummaryV2"]

def blacklistedOpsList : List String := ["Placeholder"]

/-- The `XLACompileContext` state `AddOp` reads and writes: its own identity
and the identities of the enclosing contexts, `_name_as_bytes`, `_pivot`,
`_unsupported_ops`, and the `_values`/`_external_values` frames of itself
(first) and of every enclosing context. -/
structure XLACompileContext where
  selfId : Nat
  outer_ids : List Nat
  name_as_bytes : String
  pivot : CtrlOp
  unsupported_ops : List Operation
  frames : List ContextFrame
deriving DecidableEq

/-- `_RemoveExternalControlEdges(op)`: partition the control inputs into
internal and external by the internality walk, strip all control inputs and
restore only the internal ones; both partitions are returned. -/
def RemoveExternalControlEdges (selfId : Nat) (op : Operation) :
    (List CtrlOp × List CtrlOp) × Operation :=
  let parts := op.control_inputs.partition fun x => isInternalOp selfId x
  ((parts.1, parts.2), { op with control_inputs := parts.1 })

/-- The loop `for index in xrange(len(op.inputs)) ... real_x = self.AddValue(x);
if real_x != x: op._update_input(index, real_x)`, threading the context
frames through the successive `AddValue` calls. -/
def addValueInputs : List ContextFrame → List TensorRef → List ContextFrame × List TensorRef
  | frames, [] => (frames, [])
  | frames, x :: xs =>
    let r := AddValue frames x
    let rest := addValueInputs r.2 xs
    (rest.1, (if r.1 ≠ x then r.1 else x) :: rest.2)

inductive AddOpError where
  | notImplemented (msg : String)
  | valueError (msg : String)
deriving DecidableEq

def notResourceErrorMsg (op : Operation) : String :=
  "Non-resource Variables are not supported inside XLA computations " ++
    "(operator name: " ++ op.name ++ ")"

def nestedComputationErrorMsg (op : Operation) : String :=
  "XLA compiled computations cannot be nested, (operator name: " ++ op.name ++ ")"

/-- The first step of `AddOp`: an op of an unsupported-but-tolerated type is
recorded for later reporting (blacklisted types only log an error). -/
def recordUnsupported (ctx : XLACompileContext) (op : Operation) : XLACompileContext :=
  if op.op_type ∈ unsupportedOpsList then
    { ctx with unsupported_ops := ctx.unsupported_ops ++ [op] }
  else ctx

@[simp] theorem recordUnsupported_selfId (ctx : XLACompileContext) (op : Operation) :
    (recordUnsupported ctx op).selfId = ctx.selfId := by
  unfold recordUnsupported
  split <;> rfl

@[simp] theorem recordUnsupported_outer_ids (ctx : XLACompileContext) (op : Operation) :
    (recordUnsupported ctx op).outer_ids = ctx.outer_ids := by
  unfold recordUnsupported
  split <;> rfl

@[simp] theorem recordUnsupported_name_as_bytes (ctx : XLACompileContext) (op : Operation) :
    (recordUnsupported ctx op).name_as_bytes = ctx.name_as_bytes := by
  unfold recordUnsupported
  split <;> rfl

@[simp] theorem recordUnsupported_pivot (ctx : XLACompileContext) (op : Operation) :
    (recordUnsupported ctx op).pivot = ctx.pivot := by
  unfold recordUnsupported
  split <;> rfl

@[simp] theorem recordUnsupported_frames (ctx : XLACompileContext) (op : Operation) :
    (recordUnsupported ctx op).frames = ctx.frames := by
  unfold recordUnsupported
  split <;> rfl

/-- The pass-through identities created for the external control inputs that
have at least one output (`array_ops.identity(x.outputs[0]).op` inside the
re-entered context, ops without outputs being skipped). -/
def externalIdentities (selfChain : List Nat) (external_control_inputs : List CtrlOp) :
    List CtrlOp :=
  (external_control_inputs.filter fun x => !x.outs.isEmpty).map
    fun x => CtrlOp.identityOf x selfChain

/-- `XLACompileContext.AddOp(op)`: record unsupported op types; reject
reference-dtype inputs (`NotImplementedError`) and an already-present
cluster attribute (`ValueError`); tag the operation and make it unfeedable
and unfetchable; strip external control edges; give a parentless operation a
control dependency on the pivot, or thread data inputs through `AddValue`;
re-attach external control dependencies as pass-through identities created
inside the context; finally mark all output names as seen by this context
and every enclosing one.  Errors abort the remaining steps and leave the
operation as it was at the raise point. -/
def AddOp (ctx : XLACompileContext) (op : Operation) :
    XLACompileContext × Operation × Option AddOpError :=
  let context := recordUnsupported ctx op
  if op.inputs.any fun x => x.is_ref_dtype then
    (context, op, some (AddOpError.notImplemented (notResourceErrorMsg op)))
  else if op.attrs.any fun a => a.1 == xlaCompileAttrName then
    (context, op, some (AddOpError.valueError (nestedComputationErrorMsg op)))
  else
    let op := { op with attrs := op.attrs ++ [(xlaCompileAttrName, context.name_as_bytes)] }
    -- op.graph.prevent_feeding(op); op.graph.prevent_fetching(op)
    let op := { op with feedable := false, fetchable := false }
    let removed := RemoveExternalControlEdges context.selfId op
    let internal_control_inputs := removed.1.1
    let external_control_inputs := removed.1.2
    let op := removed.2
    let step :=
      if op.inputs.isEmpty then
        if internal_control_inputs.isEmpty then
          (context, { op with control_inputs := op.control_inputs ++ [context.pivot] })
        else
          (context, op)
      else
        let r := addValueInputs context.frames op.inputs
        ({ context with frames := r.1 }, { op with inputs := r.2 })
    let context := step.1
    let op := step.2
    let op :=
      if !external_control_inputs.isEmpty then
        { op with control_inputs := op.control_inputs ++
            externalIdentities (context.selfId :: context.outer_ids) external_control_inputs }
      else op
    let output_names := op.outputs.map fun x => x.name
    let frames := context.frames.map fun f =>
      { f with values := output_names.foldl (fun vs n => insertName n vs) f.values }
    ({ context with frames := frames }, op, none)

theorem control_inputs_after_externals (op : Operation) (chain : List Nat)
    (ext : List CtrlOp) :
    (if !ext.isEmpty then
        { op with control_inputs := op.control_inputs ++ externalIdentities chain ext }
      else op).control_inputs = op.control_inputs ++ externalIdentities chain ext := by
  cases ext with
  | nil => simp [externalIdentities]
  | cons e es => rfl

/-- On the non-error path, `AddOp` leaves the operation's control inputs as
the internal ones, then the pivot when the operation has neither data inputs
nor internal control inputs, then pass-through identities of the external
control inputs that have outputs. -/
theorem AddOp_control_inputs_characterization (ctx : XLACompileContext) (op : Operation)
    (href : (op.inputs.any fun x => x.is_ref_dtype) = false)
    (hattr : (op.attrs.any fun a => a.1 == xlaCompileAttrName) = false) :
    (AddOp ctx op).2.2 = none ∧
    (AddOp ctx op).2.1.control_inputs =
      (op.control_inputs.filter fun x => isInternalOp ctx.selfId x) ++
      (if op.inputs.isEmpty then
        if (op.control_inputs.filter fun x => isInternalOp ctx.selfId x).isEmpty then
          [ctx.pivot]
        else []
      else []) ++
      externalIdentities (ctx.selfId :: ctx.outer_ids)
        (op.control_inputs.filter fun x => !isInternalOp ctx.selfId x) := by
  unfold AddOp RemoveExternalControlEdges
  simp only [href, hattr, Bool.false_eq_true, if_false, List.partition_eq_filter_filter,
    recordUnsupported_selfId, recordUnsupported_outer_ids, recordUnsupported_pivot,
    recordUnsupported_name_as_bytes, recordUnsupported_frames]
  refine ⟨?_, ?_⟩
  · by_cases hin : op.inputs.isEmpty <;>
      by_cases hI : (op.control_inputs.filter fun x => isInternalOp ctx.selfId x).isEmpty <;>
      simp [hin, hI]
  · simp only [Function.comp_def]
    by_cases hin : op.inputs.isEmpty = true <;>
      by_cases hI : (List.filter (fun x => isInternalOp ctx.selfId x) op.control_inputs).isEmpty = true
    · simp only [if_pos hin, if_pos hI]
      cases hfE : List.filter (fun x => !isInternalOp ctx.selfId x) op.control_inputs with
      | nil => simp [externalIdentities]
      | cons e es => simp [externalIdentities, List.append_assoc]
    · simp only [if_pos hin, if_neg hI]
      cases hfE : List.filter (fun x => !isInternalOp ctx.selfId x) op.control_inputs with
      | nil => simp [externalIdentities]
      | cons e es => simp [externalIdentities, List.append_assoc]
    · simp only [if_neg hin]
      cases hfE : List.filter (fun x => !isInternalOp ctx.selfId x) op.control_inputs with
      | nil => simp [externalIdentities]
      | cons e es => simp [externalIdentities, List.append_assoc]
    · simp only [if_neg hin]
      cases hfE : List.filter (fun x => !isInternalOp ctx.selfId x) op.control_inputs with
      | nil => simp [externalIdentities]
      | cons e es => simp [externalIdentities, List.append_assoc]

theorem mem_pivot_ite {c1 c2 : Prop} [Decidable c1] [Decidable c2] (p y : CtrlOp) :
    (y ∈ if c1 then if c2 then [p] else [] else []) ↔ c1 ∧ c2 ∧ y = p := by
  split_ifs with h1 h2
  · simp [h1, h2]
  · simp [h1, h2]
  · simp [h1]

/-- Membership in the control inputs produced by a successful `AddOp` run:
an original internal control input, the pivot (when the op has neither data
inputs nor internal control inputs), or a pass-through identity of an
original external control input that has outputs. -/
theorem mem_AddOp_control_inputs (ctx : XLACompileContext) (op : Operation)
    (href : (op.inputs.any fun x => x.is_ref_dtype) = false)
    (hattr : (op.attrs.any fun a => a.1 == xlaCompileAttrName) = false) (y : CtrlOp) :
    y ∈ (AddOp ctx op).2.1.control_inputs ↔
      (y ∈ op.control_inputs ∧ isInternalOp ctx.selfId y = true) ∨
      (op.inputs.isEmpty = true ∧
        (op.control_inputs.filter fun x => isInternalOp ctx.selfId x).isEmpty = true ∧
        y = ctx.pivot) ∨
      (∃ x, (x ∈ op.control_inputs ∧ isInternalOp ctx.selfId x = false) ∧ x.outs ≠ [] ∧
        CtrlOp.identityOf x (ctx.selfId :: ctx.outer_ids) = y) := by
  rw [(AddOp_control_inputs_characterization ctx op href hattr).2]
  constructor
  · intro h
    rcases List.mem_append.mp h with h | h
    · rcases List.mem_append.mp h with h | h
      · exact Or.inl ⟨(List.mem_filter.mp h).1, (List.mem_filter.mp h).2⟩
      · rcases (mem_pivot_ite ctx.pivot y).mp h with ⟨c1, c2, rfl⟩
        exact Or.inr (Or.inl ⟨c1, c2, rfl⟩)
    · unfold externalIdentities at h
      rcases List.mem_map.mp h with ⟨x, hx, heq⟩
      rcases List.mem_filter.mp hx with ⟨hx1, hx2⟩
      rcases List.mem_filter.mp hx1 with ⟨hx3, hx4⟩
      refine Or.inr (Or.inr ⟨x, ⟨hx3, ?_⟩, ?_, heq⟩)
      · cases hb : isInternalOp ctx.selfId x
        · rfl
        · rw [hb] at hx4
          cases hx4
      · intro hnil
        rw [hnil] at hx2
        cases hx2
  · intro h
    rcases h with ⟨hy, hint⟩ | ⟨c1, c2, rfl⟩ | ⟨x, ⟨hx, hext⟩, houts, heq⟩
    · exact List.mem_append.mpr
        (Or.inl (List.mem_append.mpr (Or.inl (List.mem_filter.mpr ⟨hy, hint⟩))))
    · exact List.mem_append.mpr
        (Or.inl (List.mem_append.mpr (Or.inr ((mem_pivot_ite _ _).mpr ⟨c1, c2, rfl⟩))))
    · refine List.mem_append.mpr (Or.inr ?_)
      unfold externalIdentities
      refine List.mem_map.mpr ⟨x, List.mem_filter.mpr ⟨List.mem_filter.mpr ⟨hx, ?_⟩, ?_⟩, heq⟩
      · rw [hext]
        rfl
      · cases ho : x.outs with
        | nil => exact absurd ho houts
        | cons a l => rfl

/-- Claim C6: an operation processed by `AddOp` that has zero data inputs
and no internal control inputs ends up with a control dependency on the
context's pivot marker (provided `AddOp` completes, i.e. the operation does
not already carry the cluster attribute). -/
theorem AddOp_pivot_control_dependency (ctx : XLACompileContext) (op : Operation)
    (hin : op.inputs = [])
    (hctl : ∀ x ∈ op.control_inputs, isInternalOp ctx.selfId x = false)
    (hattr : (op.attrs.any fun a => a.1 == xlaCompileAttrName) = false) :
    (AddOp ctx op).2.2 = none ∧ ctx.pivot ∈ (AddOp ctx op).2.1.control_inputs := by
  have href : (op.inputs.any fun x => x.is_ref_dtype) = false := by
    rw [hin]
    rfl
  refine ⟨(AddOp_control_inputs_characterization ctx op href hattr).1, ?_⟩
  rw [mem_AddOp_control_inputs ctx op href hattr]
  refine Or.inr (Or.inl ⟨?_, ?_, rfl⟩)
  · rw [hin]
    rfl
  · have hfil : (op.control_inputs.filter fun x => isInternalOp ctx.selfId x) = [] := by
      rw [List.filter_eq_nil_iff]
      intro a ha
      rw [hctl a ha]
      simp
    rw [hfil]
    rfl

/-- Witness for C6: a parentless constant whose only control input lives in
a foreign context acquires a control dependency on the pivot; the theorem's
hypotheses are discharged at this concrete context and operation. -/
theorem AddOp_pivot_control_dependency_witness :
    CtrlOp.basic "cluster/pivot" [] [] ∈
      (AddOp ⟨1, [], "cluster", CtrlOp.basic "cluster/pivot" [] [], [], [⟨[], []⟩]⟩
        ⟨"Const", "c1", [], [CtrlOp.basic "ext" [7] [⟨"ext:0", false⟩]], [],
          [⟨"c1:0", false⟩], true, true⟩).2.1.control_inputs :=
  (AddOp_pivot_control_dependency
    ⟨1, [], "cluster", CtrlOp.basic "cluster/pivot" [] [], [], [⟨[], []⟩]⟩
    ⟨"Const", "c1", [], [CtrlOp.basic "ext" [7] [⟨"ext:0", false⟩]], [],
      [⟨"c1:0", false⟩], true, true⟩
    rfl (by decide) (by decide)).2

/-- Claim C7: after a successful `AddOp` run, every external control input
(one whose context chain does not include this context) has been stripped
from the operation; each external control input with at least one output is
replaced by a control edge to a pass-through identity of it created inside
this context; and every remaining control input is internal or the pivot, so
no raw cross-boundary control edge of the original operation remains.  (The
pivot never appears among the operation's original control inputs.) -/
theorem AddOp_external_control_rewrite (ctx : XLACompileContext) (op : Operation)
    (href : (op.inputs.any fun x => x.is_ref_dtype) = false)
    (hattr : (op.attrs.any fun a => a.1 == xlaCompileAttrName) = false)
    (hpivot : ctx.pivot ∉ op.control_inputs) :
    (AddOp ctx op).2.2 = none ∧
    (∀ x ∈ op.control_inputs, isInternalOp ctx.selfId x = false →
      x ∉ (AddOp ctx op).2.1.control_inputs ∧
      (x.outs ≠ [] →
        CtrlOp.identityOf x (ctx.selfId :: ctx.outer_ids) ∈
          (AddOp ctx op).2.1.control_inputs)) ∧
    (∀ y ∈ (AddOp ctx op).2.1.control_inputs,
      isInternalOp ctx.selfId y = true ∨ y = ctx.pivot) := by
  refine ⟨(AddOp_control_inputs_characterization ctx op href hattr).1, ?_, ?_⟩
  · intro x hx hext
    constructor
    · intro hmem
      rcases (mem_AddOp_control_inputs ctx op href hattr x).mp hmem with
        ⟨-, hint⟩ | ⟨-, -, rfl⟩ | ⟨z, ⟨-, -⟩, -, heq⟩
      · rw [hext] at hint
        cases hint
      · exact hpivot hx
      · rw [← heq] at hext
        simp [isInternalOp, CtrlOp.ctxChain] at hext
    · intro houts
      exact (mem_AddOp_control_inputs ctx op href hattr _).mpr
        (Or.inr (Or.inr ⟨x, ⟨hx, hext⟩, houts, rfl⟩))
  · intro y hy
    rcases (mem_AddOp_control_inputs ctx op href hattr y).mp hy with
      ⟨-, hint⟩ | ⟨-, -, rfl⟩ | ⟨z, ⟨-, -⟩, -, heq⟩
    · exact Or.inl hint
    · exact Or.inr rfl
    · left
      rw [← heq]
      simp [isInternalOp, CtrlOp.ctxChain]

/-- Witness for C7: an operation with one external control input (context
chain `[7]`, one output) inside context `1`; the external edge is replaced
by a pass-through identity created inside the context.  All hypotheses of
the theorem are discharged at this concrete input. -/
theorem AddOp_external_control_rewrite_witness :
    CtrlOp.identityOf (CtrlOp.basic "ext" [7] [⟨"ext:0", false⟩]) [1] ∈
      (AddOp ⟨1, [], "cluster", CtrlOp.basic "cluster/pivot" [] [], [], [⟨[], []⟩]⟩
        ⟨"Add", "a1", [⟨"x:0", false⟩], [CtrlOp.basic "ext" [7] [⟨"ext:0", false⟩]], [],
          [⟨"a1:0", false⟩], true, true⟩).2.1.control_inputs :=
  ((AddOp_external_control_rewrite
      ⟨1, [], "cluster", CtrlOp.basic "cluster/pivot" [] [], [], [⟨[], []⟩]⟩
      ⟨"Add", "a1", [⟨"x:0", false⟩], [CtrlOp.basic "ext" [7] [⟨"ext:0", false⟩]], [],
        [⟨"a1:0", false⟩], true, true⟩
      (by decide) (by decide) (by decide)).2.1
    (CtrlOp.basic "ext" [7] [⟨"ext:0", false⟩]) (by decide) (by decide)).2 (by decide)

/-- Claim C8: an operation that already carries the cluster boundary tag
attribute makes `AddOp` raise a `ValueError` immediately, before tagging:
the operation is returned exactly as it was presented, so compiled regions
cannot nest.  (The reference-dtype check precedes this one in the source, so
the operation is assumed to pass it.) -/
theorem AddOp_rejects_nested_computation (ctx : XLACompileContext) (op : Operation)
    (hattr : (op.attrs.any fun a => a.1 == xlaCompileAttrName) = true)
    (href : (op.inputs.any fun x => x.is_ref_dtype) = false) :
    (AddOp ctx op).2.2 = some (AddOpError.valueError (nestedComputationErrorMsg op)) ∧
    (AddOp ctx op).2.1 = op := by
  unfold AddOp
  simp [href, hattr]

/-- Witness for C8: an operation carrying `_xla_compile_id` is rejected with
the nesting `ValueError`; the theorem's hypotheses are discharged at this
concrete input. -/
theorem AddOp_rejects_nested_computation_witness :
    (AddOp ⟨1, [], "cluster", CtrlOp.basic "cluster/pivot" [] [], [], [⟨[], []⟩]⟩
        ⟨"Add", "add1", [], [], [("_xla_compile_id", "other")], [], true, true⟩).2.2 =
      some (AddOpError.valueError (nestedComputationErrorMsg
        ⟨"Add", "add1", [], [], [("_xla_compile_id", "other")], [], true, true⟩)) :=
  (AddOp_rejects_nested_computation
    ⟨1, [], "cluster", CtrlOp.basic "cluster/pivot" [] [], [], [⟨[], []⟩]⟩
    ⟨"Add", "add1", [], [], [("_xla_compile_id", "other")], [], true, true⟩
    (by decide) (by decide)).1

/-! ### `_CapturedObject`

A captured Python object is modelled by its truthiness and an identifier;
the `_object` slot starts as Python `None` (modelled by `Option`), and the
guard `if self._object:` tests Python truthiness of the slot. -/

structure PyObj where
  truthy : Bool
  id : Nat
deriving DecidableEq

/-- Python truthiness of the `_object` slot (`None` is falsy). -/
def pyTruthy : Option PyObj → Bool
  | none => false
  | some o => o.truthy

structure CapturedObject where
  _object : Option PyObj
deriving DecidableEq

def capturedObjectErrorMsg : String :=
  "InternalError: _CapturedObject can capture only once. Please file bug."

/-- `_CapturedObject.capture(o)`: raise a `RuntimeError` when the slot is
already truthy (leaving the slot unchanged), otherwise store the object. -/
def CapturedObject.capture (c : CapturedObject) (o : PyObj) :
    CapturedObject × Option String :=
  if pyTruthy c._object then
    (c, some capturedObjectErrorMsg)
  else
    ({ _object := some o }, none)

/-- `_CapturedObject.get()`. -/
def CapturedObject.get (c : CapturedObject) : Option PyObj :=
  c._object

/-- Claim C10: a `_CapturedObject` accepts at most one capture — `get` on a
never-captured object returns `None`; a first capture of a truthy object
succeeds and `get` then returns that object; any subsequent capture raises a
`RuntimeError` and leaves the stored object unchanged. -/
theorem captured_object_capture_once (o o' : PyObj) (h : o.truthy = true) :
    CapturedObject.get ⟨none⟩ = none ∧
    (CapturedObject.capture ⟨none⟩ o).2 = none ∧
    CapturedObject.get (CapturedObject.capture ⟨none⟩ o).1 = some o ∧
    (CapturedObject.capture (CapturedObject.capture ⟨none⟩ o).1 o').2 =
      some capturedObjectErrorMsg ∧
    (CapturedObject.capture (CapturedObject.capture ⟨none⟩ o).1 o').1 =
      (CapturedObject.capture ⟨none⟩ o).1 := by
  refine ⟨rfl, rfl, rfl, ?_, ?_⟩ <;>
    simp [CapturedObject.capture, CapturedObject.get, pyTruthy, h]

/-- Witness for C10: concrete truthy objects; the theorem's truthiness
hypothesis is discharged by evaluation. -/
theorem captured_object_capture_once_witness :
    CapturedObject.get (CapturedObject.capture ⟨none⟩ ⟨true, 0⟩).1 = some ⟨true, 0⟩ ∧
    (CapturedObject.capture (CapturedObject.capture ⟨none⟩ ⟨true, 0⟩).1 ⟨true, 1⟩).2 =
      some capturedObjectErrorMsg :=
  ⟨(captured_object_capture_once ⟨true, 0⟩ ⟨true, 1⟩ (by decide)).2.2.1,
   (captured_object_capture_once ⟨true, 0⟩ ⟨true, 1⟩ (by decide)).2.2.2.1⟩

/-! ### The compile driver (`_compile_internal`)

The driver's control flow is modelled by threading an explicit state through
the statements the claims observe: the variable scope's process-wide
`use_resource` flag, whether the cluster context has been created, entered
and exited, and whether the unsupported-operation report ran.  The ghost
field `use_resource_at_call` records the flag's value at the moment the user
function is invoked.  The user function itself is an oracle that either
returns an output structure or raises; graph-building collaborators
(input flattening, identity wrapping, `pack_sequence_as`, cluster naming)
have no effect on this state. -/

inductive PyInputs where
  | pynone
  | seqOf (xs : List Nat)
  | nonSeq (v : Nat)

inductive CompBehavior where
  | returns (outputs : PyOut)
  | raises (msg : String)

inductive DriverError where
  | typeError (msg : String)
  | userException (msg : String)
  | valueError (msg : String)
deriving DecidableEq

structure DriverState where
  use_resource : Bool
  context_created : Bool
  context_entered : Bool
  context_exited : Bool
  reported : Bool
  use_resource_at_call : Option Bool
deriving DecidableEq

/-- `_compile_internal(computation, inputs)`: default `None` inputs to `[]`
and reject non-sequence inputs with a `TypeError` before the cluster context
is created; then create the pivot and context, and inside `try`: enter the
context, save the `use_resource` flag and force it to `True`, run the user
function (restoring the flag only on normal return), classify and normalize
the outputs; the `finally` block reports unsupported operations and exits
the context on every path. -/
def compile_internal (computation : CompBehavior) (inputs : PyInputs) (s : DriverState) :
    DriverState × Option DriverError :=
  -- if inputs is None: inputs = []
  let inputs := match inputs with
    | .pynone => PyInputs.seqOf []
    | i => i
  match inputs with
  | .nonSeq _ => (s, some (DriverError.typeError "inputs must be a list"))
  | _ =>
    -- flatten inputs, convert to tensors, generate the cluster name, build
    -- the pivot no_op and the XLACompileContext
    let s := { s with context_created := true }
    -- try:
    let body :=
      let s := { s with context_entered := true }   -- context.Enter()
      -- identity-wrap the flat inputs and re-pack them: graph effects only
      let saved_use_resource := s.use_resource      -- vscope.use_resource
      let s := { s with use_resource := true }      -- vscope.set_use_resource(True)
      match computation with
      | .raises msg =>
        ({ s with use_resource_at_call := some s.use_resource },
          some (DriverError.userException msg))
      | .returns outputs =>
        let s := { s with use_resource_at_call := some s.use_resource }
        -- restore variable scope after computation
        let s := { s with use_resource := saved_use_resource }
        let outputs_is_flat := is_flat outputs
        let post := if outputs_is_flat then postprocessFlatOutputs outputs
          else postprocessNonFlatOutputs outputs
        match post with
        | .error m => (s, some (DriverError.valueError m))
        | .ok _ => (s, none)                         -- context.ExitResult(...)
    -- finally: report_unsupported_operations(); context.Exit()
    let s := { body.1 with reported := true, context_exited := true }
    (s, body.2)

/-- Claim C9: a non-sequence `inputs` raises a `TypeError` immediately,
before the cluster context is created or entered (the state is returned
untouched); `None` inputs are treated exactly as an empty list, and the
inputs `TypeError` is never raised in that case. -/
theorem compile_internal_inputs_validation (computation : CompBehavior)
    (s : DriverState) (v : Nat) :
    compile_internal computation (PyInputs.nonSeq v) s =
      (s, some (DriverError.typeError "inputs must be a list")) ∧
    compile_internal computation PyInputs.pynone s =
      compile_internal computation (PyInputs.seqOf []) s ∧
    ∀ m, (compile_internal computation PyInputs.pynone s).2 ≠
      some (DriverError.typeError m) := by
  refine ⟨rfl, rfl, ?_⟩
  intro m
  unfold compile_internal
  cases computation with
  | raises msg => simp
  | returns outputs =>
    cases hp : (if is_flat outputs then postprocessFlatOutputs outputs
        else postprocessNonFlatOutputs outputs) with
    | error e => simp [hp]
    | ok r => simp [hp]

/-- Witness for C9: concrete runs of the driver at a non-sequence input and
at `None`. -/
theorem compile_internal_inputs_validation_witness :
    compile_internal (CompBehavior.returns PyOut.pynone) (PyInputs.nonSeq 0)
        ⟨false, false, false, false, false, none⟩ =
      (⟨false, false, false, false, false, none⟩,
        some (DriverError.typeError "inputs must be a list")) ∧
    (compile_internal (CompBehavior.returns PyOut.pynone) PyInputs.pynone
        ⟨false, false, false, false, false, none⟩).2 ≠
      some (DriverError.typeError "inputs must be a list") :=
  ⟨(compile_internal_inputs_validation (CompBehavior.returns PyOut.pynone)
      ⟨false, false, false, false, false, none⟩ 0).1,
   (compile_internal_inputs_validation (CompBehavior.returns PyOut.pynone)
      ⟨false, false, false, false, false, none⟩ 0).2.2
     "inputs must be a list"⟩

/-- Claim C2 counterexample: with the use-resource flag initially `False`
and a user function that raises, the driver run ends with the flag still
`True` — the prior value is not restored on the exception path, contrary to
the claim. -/
theorem use_resource_not_restored_counterexample :
    (compile_internal (CompBehavior.raises "user function failed") (PyInputs.seqOf [])
        ⟨false, false, false, false, false, none⟩).1.use_resource = true ∧
    (false ≠ true) :=
  ⟨rfl, by decide⟩

/-- Claim C2 (amended): on every run with sequence-shaped inputs the
use-resource flag is `True` at the moment the user function runs; when the
user function returns normally the flag is restored to its prior value
(before output postprocessing, hence also when postprocessing fails); when
the user function raises, the flag is left `True` and is not restored. -/
theorem use_resource_flag_behavior (computation : CompBehavior) (xs : List Nat)
    (s : DriverState) :
    (compile_internal computation (PyInputs.seqOf xs) s).1.use_resource_at_call =
      some true ∧
    (∀ outputs, computation = CompBehavior.returns outputs →
      (compile_internal computation (PyInputs.seqOf xs) s).1.use_resource =
        s.use_resource) ∧
    (∀ msg, computation = CompBehavior.raises msg →
      (compile_internal computation (PyInputs.seqOf xs) s).1.use_resource = true) := by
  refine ⟨?_, ?_, ?_⟩
  · unfold compile_internal
    cases computation with
    | raises msg => rfl
    | returns outputs =>
      cases hp : (if is_flat outputs then postprocessFlatOutputs outputs
          else postprocessNonFlatOutputs outputs) with
      | error e => simp [hp]
      | ok r => simp [hp]
  · rintro outputs rfl
    unfold compile_internal
    cases hp : (if is_flat outputs then postprocessFlatOutputs outputs
        else postprocessNonFlatOutputs outputs) with
    | error e => simp [hp]
    | ok r => simp [hp]
  · rintro msg rfl
    rfl

/-- Witness for C2 (amended): a concrete raising run, starting from a
`False` flag, observes `True` during the call and ends with the flag still
`True`; the conversion hypotheses of the theorem are discharged
concretely. -/
theorem use_resource_flag_behavior_witness :
    (compile_internal (CompBehavior.raises "boom") (PyInputs.seqOf [])
        ⟨false, false, false, false, false, none⟩).1.use_resource_at_call = some true ∧
    (compile_internal (CompBehavior.raises "boom") (PyInputs.seqOf [])
        ⟨false, false, false, false, false, none⟩).1.use_resource = true :=
  ⟨(use_resource_flag_behavior (CompBehavior.raises "boom") []
      ⟨false, false, false, false, false, none⟩).1,
   (use_resource_flag_behavior (CompBehavior.raises "boom") []
      ⟨false, false, false, false, false, none⟩).2.2 "boom" rfl⟩

end Xla
